import Mathlib

/-!
Verification of the flashcard-generator application (`src/app.py`).

The development shallowly embeds the program's core: the data model
(`Flashcard`, `FlashcardSet`), the prompt composition performed inside
`ContentEngine.generate_flashcards`, the schema validation performed by the
output parser, the parse-or-fallback logic, and the UI generate-button
handler.  External effects (the remote chat-completion call and the textual
JSON decoder of the third-party output parser) are parameters of the
embedded functions: the remote call is a function from the composed prompt
to either a transport error or the raw response text, and the JSON decoder
is a function from raw response text to an optional JSON value.  The
f-string formatting that the chain invocation applies to the composed
template before the remote call is modelled by an explicit single-pass
scanner (`pyFormatScan`), including its substitution of replacement fields
and its error path on malformed or unknown braces.
-/

set_option maxRecDepth 8000

/-- JSON values, as produced by the third-party JSON decoding step that the
output parser runs on the raw model response.  Numbers are modelled as
integers; no claim depends on numeric values. -/
inductive Json where
  | null
  | bool (b : Bool)
  | num (n : Int)
  | str (s : String)
  | arr (elems : List Json)
  | obj (fields : List (String × Json))

/-- `class Flashcard(BaseModel)`: `front` and `back` are required strings,
`explanation` is an optional string (src/app.py lines 31-34). -/
structure Flashcard where
  front : String
  back : String
  explanation : Option String
  deriving Repr, DecidableEq

/-- `class FlashcardSet(BaseModel)`: a required string `title` and a required
list `flashcards` (src/app.py lines 36-38). -/
structure FlashcardSet where
  title : String
  flashcards : List Flashcard
  deriving Repr, DecidableEq

/-- Validation of one JSON value against the declared `Flashcard` schema:
`front` and `back` must be present with string values; `explanation` may be
absent, null, or a string.  Extra fields are ignored, as pydantic does by
default. -/
def validateFlashcard : Json → Except String Flashcard
  | .obj fields =>
    match fields.lookup "front", fields.lookup "back" with
    | some (.str f), some (.str b) =>
      match fields.lookup "explanation" with
      | none => .ok { front := f, back := b, explanation := none }
      | some .null => .ok { front := f, back := b, explanation := none }
      | some (.str e) => .ok { front := f, back := b, explanation := some e }
      | some _ => .error "explanation: str type expected"
    | _, _ => .error "front, back: field required with str type"
  | _ => .error "flashcard value is not a valid dict"

/-- Validation of a JSON array elementwise against the `Flashcard` schema;
any invalid element fails the whole list, as pydantic list validation does. -/
def validateFlashcards : List Json → Except String (List Flashcard)
  | [] => .ok []
  | x :: xs =>
    match validateFlashcard x with
    | .error e => .error e
    | .ok c =>
      match validateFlashcards xs with
      | .error e => .error e
      | .ok cs => .ok (c :: cs)

/-- Validation of a JSON value against the declared `FlashcardSet` schema:
`title` must be a string, `flashcards` must be an array of valid flashcards.
Nothing in the schema constrains the length of `flashcards` or forbids an
empty `title`. -/
def validateFlashcardSet : Json → Except String FlashcardSet
  | .obj fields =>
    match fields.lookup "title", fields.lookup "flashcards" with
    | some (.str t), some (.arr xs) =>
      match validateFlashcards xs with
      | .error e => .error e
      | .ok cs => .ok { title := t, flashcards := cs }
    | _, _ => .error "title, flashcards: field required with declared type"
  | _ => .error "flashcard set value is not a valid dict"

/-- The number of entries of the `flashcards` array of a JSON value, when it
has one. -/
def jsonNumCards : Json → Option Nat
  | .obj fields =>
    match fields.lookup "flashcards" with
    | some (.arr xs) => some xs.length
    | _ => none
  | _ => none

/-- `parser.parse(results.content)` (src/app.py line 110): the third-party
parser first decodes the raw text as JSON (the `decode` parameter; `none`
models malformed JSON) and then validates the JSON value against the
declared schema. -/
def parseResponse (decode : String → Option Json) (content : String) :
    Except String FlashcardSet :=
  match decode content with
  | none => .error ("Invalid json output: " ++ content)
  | some j => validateFlashcardSet j

/-- Python truthiness of an optional string: `if custom_instructions:` is
taken only when the value is neither `None` nor the empty string. -/
def strOptTruthy : Option String → Bool
  | none => false
  | some s => !s.isEmpty

/-- The default prompt template exactly as written in src/app.py lines
74-90, with its `num` / `topic` placeholders (braces escaped). -/
def defaultPromptTemplate : String :=
  "\n            Generate a set of \x7bnum\x7d flashcards on the topic: \x7btopic\x7d.\n\n"
  ++ "            For each flashcard, provide:\n"
  ++ "            1. A front side with a question or key term\n"
  ++ "            2. A back side with the answer or definition\n"
  ++ "            3. An optional explanation or additional context\n\n"
  ++ "            The flashcards should cover key concepts, terminology, and important facts related to the topic.\n\n"
  ++ "            Ensure that the output follows this structure:\n"
  ++ "            - A title for the flashcard set (the main topic)\n"
  ++ "            - A list of flashcards, each containing:\n"
  ++ "              - front: The question or key term\n"
  ++ "              - back: The answer or definition\n"
  ++ "              - explanation: Additional context or explanation (optional)\n"
  ++ "            "

/-- The template-string composition of src/app.py lines 73-95: start from
the given template (or the default), append the custom instructions section
when the custom instructions are truthy, then append the JSON-format
instruction with its `format_instructions` placeholder. -/
def composeTemplate (prompt_template : Option String)
    (custom_instructions : Option String) : String :=
  let t := prompt_template.getD defaultPromptTemplate
  let t := if strOptTruthy custom_instructions then
      t ++ ("\n\nAdditional Instructions:\n" ++ custom_instructions.getD "")
    else t
  t ++ "\n\nThe response should be in JSON format.\n\x7bformat_instructions\x7d"

/-- The default prompt template with its `num` and `topic` placeholders
filled, as the prompt-template formatting step does on invocation. -/
def basePrompt (num : Nat) (topic : String) : String :=
  "\n            Generate a set of " ++ toString num
  ++ " flashcards on the topic: " ++ topic ++ ".\n\n"
  ++ "            For each flashcard, provide:\n"
  ++ "            1. A front side with a question or key term\n"
  ++ "            2. A back side with the answer or definition\n"
  ++ "            3. An optional explanation or additional context\n\n"
  ++ "            The flashcards should cover key concepts, terminology, and important facts related to the topic.\n\n"
  ++ "            Ensure that the output follows this structure:\n"
  ++ "            - A title for the flashcard set (the main topic)\n"
  ++ "            - A list of flashcards, each containing:\n"
  ++ "              - front: The question or key term\n"
  ++ "              - back: The answer or definition\n"
  ++ "              - explanation: Additional context or explanation (optional)\n"
  ++ "            "

/-- The prompt string that formatting the composed default template
produces when the custom instructions take no part in formatting (they
contain no replacement-field braces): the filled default template, then
(when truthy) the custom instructions after the `Additional Instructions:`
header (src/app.py lines 92-93), then the JSON-format instruction with the
schema-derived format instructions filled in (src/app.py line 95).
`formatTemplate_default_braceless` below proves that the explicit formatter
model produces exactly this string on such inputs; custom instructions that
do carry braces are handled only by the full formatter model. -/
def composedPrompt (topic : String) (num : Nat)
    (custom_instructions : Option String) (schema_description : String) : String :=
  basePrompt num topic
  ++ (if strOptTruthy custom_instructions then
        "\n\nAdditional Instructions:\n" ++ custom_instructions.getD ""
      else "")
  ++ ("\n\nThe response should be in JSON format.\n" ++ schema_description)

/-- The observable outcome of one `generate_flashcards` call: the returned
value or propagated error, together with the diagnostic lines printed. -/
structure GenOutput where
  result : Except String FlashcardSet
  logs : List String
  deriving Repr

/-- `ContentEngine.generate_flashcards` for the default response model
(src/app.py lines 64-116), restricted to inputs on which the template
formatting inside the chain invocation succeeds (so the prompt is
`composedPrompt`): invoke the remote chain (`invoke`; an `Except.error`
models a raised transport or authentication failure, which propagates),
then try to parse the response; on any parse failure print three
diagnostic lines and return the fallback
`FlashcardSet(title=topic, flashcards=[])`.  The general model with the
formatting step and its error path made explicit is
`generate_flashcards_full` below, which agrees with this function on
brace-free custom instructions (`generate_flashcards_full_agrees`). -/
def generate_flashcards (topic : String) (num : Nat)
    (custom_instructions : Option String) (format_instructions : String)
    (decode : String → Option Json)
    (invoke : String → Except String String) : GenOutput :=
  match invoke (composedPrompt topic num custom_instructions format_instructions) with
  | .error e => { result := .error e, logs := [] }
  | .ok content =>
    match parseResponse decode content with
    | .ok s => { result := .ok s, logs := [] }
    | .error e =>
      { result := .ok { title := topic, flashcards := [] }
        logs := ["Error parsing output: " ++ e, "Raw output:", content] }

/-- `ContentEngine.generate_flashcards` when the caller supplies a custom
`response_model` of type `α` (src/app.py lines 64-70 and 109-116): on parse
success the parsed `α` value is returned, while the except-branch still
returns the default-schema `FlashcardSet(title=topic, flashcards=[])`; the
sum type records which of the two shapes the returned value has. -/
def generate_flashcards_custom (α : Type) (topic : String) (num : Nat)
    (custom_instructions : Option String) (format_instructions : String)
    (parse : String → Except String α)
    (invoke : String → Except String String) :
    Except String (α ⊕ FlashcardSet) :=
  match invoke (composedPrompt topic num custom_instructions format_instructions) with
  | .error e => .error e
  | .ok content =>
    match parse content with
    | .ok v => .ok (.inl v)
    | .error _ => .ok (.inr { title := topic, flashcards := [] })

/-- The warning text shown by the UI for a missing topic (src/app.py
line 152). -/
def emptyTopicWarning : String := "⚠️ Please enter a topic for the flashcards."

/-- The observable outcome of one click of the generate button: whether
`generate_flashcards` was invoked, the warning shown (if any), and the
generation outcome (if any). -/
structure ClickOutcome where
  genCalled : Bool
  warning : Option String
  outcome : Option GenOutput
  deriving Repr

/-- The generate-button handler (src/app.py lines 138-152): when the topic
string is truthy (non-empty) call `generate_flashcards topic num` with no
custom instructions, otherwise show the missing-topic warning and make no
generation call. -/
def onGenerateClick (topic : String) (num : Nat)
    (format_instructions : String) (decode : String → Option Json)
    (invoke : String → Except String String) : ClickOutcome :=
  if !topic.isEmpty then
    { genCalled := true, warning := none
      outcome := some (generate_flashcards topic num none format_instructions decode invoke) }
  else
    { genCalled := false, warning := some emptyTopicWarning, outcome := none }

/-- A schema-conforming model response carrying an empty title and an empty
flashcards array: `{"title": "", "flashcards": []}` is valid for the
declared schema, which bounds neither the list length nor the title. -/
def emptySetJson : Json := .obj [("title", .str ""), ("flashcards", .arr [])]

/-- A schema-conforming model response carrying three flashcards. -/
def threeCardJson : Json :=
  .obj [("title", .str "Cell Biology"),
        ("flashcards", .arr
          [.obj [("front", .str "What is a cell?"),
                 ("back", .str "The basic unit of life")],
           .obj [("front", .str "What is a nucleus?"),
                 ("back", .str "The organelle holding DNA")],
           .obj [("front", .str "What is a ribosome?"),
                 ("back", .str "The site of protein synthesis")]])]

/-- The `FlashcardSet` that `threeCardJson` validates to. -/
def threeCardSet : FlashcardSet :=
  { title := "Cell Biology",
    flashcards :=
      [{ front := "What is a cell?", back := "The basic unit of life",
         explanation := none },
       { front := "What is a nucleus?", back := "The organelle holding DNA",
         explanation := none },
       { front := "What is a ribosome?", back := "The site of protein synthesis",
         explanation := none }] }

/-- A schema-conforming model response carrying two flashcards, one with an
explanation. -/
def twoCardJson : Json :=
  .obj [("title", .str "Python Programming"),
        ("flashcards", .arr
          [.obj [("front", .str "What is a list?"),
                 ("back", .str "An ordered mutable sequence"),
                 ("explanation", .str "Lists are written with square brackets")],
           .obj [("front", .str "What is a tuple?"),
                 ("back", .str "An ordered immutable sequence")]])]

/-- The `FlashcardSet` that `twoCardJson` validates to. -/
def twoCardSet : FlashcardSet :=
  { title := "Python Programming",
    flashcards :=
      [{ front := "What is a list?", back := "An ordered mutable sequence",
         explanation := some "Lists are written with square brackets" },
       { front := "What is a tuple?", back := "An ordered immutable sequence",
         explanation := none }] }

/-- A sample caller-supplied response model, structurally distinct from
`FlashcardSet`, exercising the `response_model` parameter of
`generate_flashcards`. -/
structure QuizItem where
  question : String
  answer : String
  deriving Repr, DecidableEq

/-- A sample caller-supplied response-model container of `QuizItem`s. -/
structure QuizBank where
  subject : String
  items : List QuizItem
  deriving Repr, DecidableEq

/-- The left-brace character of the template-formatting syntax. -/
def lbrace : Char := Char.ofNat 123

/-- The right-brace character of the template-formatting syntax. -/
def rbrace : Char := Char.ofNat 125

/-- Map over the payload of a successful scan result. -/
def exMap (f : List Char → List Char) :
    Except String (List Char) → Except String (List Char)
  | .error e => .error e
  | .ok v => .ok (f v)

/-- Resolution of one replacement field of the prompt template, as the
f-string formatter inside the chain invocation performs it: the declared
variables are `num` and `topic` plus the partial variable
`format_instructions` (src/app.py lines 97-101); any other field name is a
key error.  Replacement values are inserted verbatim and never rescanned,
as in Python string formatting. -/
def pyFormatVar (num : Nat) (topic fmt : String) (name : List Char) :
    Except String (List Char) :=
  if name = "num".data then .ok (toString num).data
  else if name = "topic".data then .ok topic.data
  else if name = "format_instructions".data then .ok fmt.data
  else .error ("KeyError: " ++ String.mk name)

/-- The single-pass scan of the f-string formatter that the composed
template runs through inside `flashcard_chain.invoke` (src/app.py lines
97-107): a doubled brace denotes a literal brace, a brace pair delimits a
replacement field resolved by `pyFormatVar`, and a dangling brace is an
error.  The mode argument is `none` while scanning literal text and
`some acc` while reading a field name.  A field is treated as a plain
variable name; the format-spec mini-language of Python is not modelled, and
no theorem rests on inputs that use it. -/
def pyFormatScan (num : Nat) (topic fmt : String) :
    Option (List Char) → List Char → Except String (List Char)
  | none, [] => .ok []
  | some _, [] => .error "ValueError: single left brace encountered in format string"
  | none, c :: rest =>
    if c = lbrace then
      match rest with
      | c₂ :: rest₂ =>
        if c₂ = lbrace then
          exMap (fun out => lbrace :: out) (pyFormatScan num topic fmt none rest₂)
        else pyFormatScan num topic fmt (some []) (c₂ :: rest₂)
      | [] => .error "ValueError: single left brace encountered in format string"
    else if c = rbrace then
      match rest with
      | c₂ :: rest₂ =>
        if c₂ = rbrace then
          exMap (fun out => rbrace :: out) (pyFormatScan num topic fmt none rest₂)
        else .error "ValueError: single right brace encountered in format string"
      | [] => .error "ValueError: single right brace encountered in format string"
    else exMap (fun out => c :: out) (pyFormatScan num topic fmt none rest)
  | some acc, c :: rest =>
    if c = rbrace then
      match pyFormatVar num topic fmt acc.reverse with
      | .error e => .error e
      | .ok v => exMap (fun out => v ++ out) (pyFormatScan num topic fmt none rest)
    else pyFormatScan num topic fmt (some (c :: acc)) rest

/-- `PromptTemplate.format` over the declared variables: scan the template
text and return the formatted prompt, or the formatting error that the
chain invocation raises before any remote call is made. -/
def formatTemplate (template : String) (num : Nat) (topic fmt : String) :
    Except String String :=
  match pyFormatScan num topic fmt none template.data with
  | .error e => .error e
  | .ok cs => .ok (String.mk cs)

/-- `ContentEngine.generate_flashcards` with the template-formatting step of
the chain invocation made explicit: the composed default template is first
formatted — a formatting failure raises with no remote call made — then the
remote call runs on the formatted prompt, and the parse-or-fallback logic
is unchanged.  `generate_flashcards` above is the restriction of this
function to inputs on which formatting succeeds, where the formatted prompt
is `composedPrompt` (see `generate_flashcards_full_agrees`). -/
def generate_flashcards_full (topic : String) (num : Nat)
    (custom_instructions : Option String) (format_instructions : String)
    (decode : String → Option Json)
    (invoke : String → Except String String) : GenOutput :=
  match formatTemplate (composeTemplate none custom_instructions)
      num topic format_instructions with
  | .error e => { result := .error e, logs := [] }
  | .ok prompt =>
    match invoke prompt with
    | .error e => { result := .error e, logs := [] }
    | .ok content =>
      match parseResponse decode content with
      | .ok s => { result := .ok s, logs := [] }
      | .error e =>
        { result := .ok { title := topic, flashcards := [] }
          logs := ["Error parsing output: " ++ e, "Raw output:", content] }

/-- Whether a formatting outcome is a successfully composed prompt. -/
def exceptOk : Except String String → Bool
  | .ok _ => true
  | .error _ => false

/-- Whether `needle` occurs as a contiguous run inside `hay`. -/
def listContains (needle : List Char) : List Char → Bool
  | [] => needle.isEmpty
  | c :: rest =>
    if needle.isPrefixOf (c :: rest) then true else listContains needle rest

/-- Whether a successfully composed prompt contains the given text as a
contiguous substring (`false` on a formatting error). -/
def exceptContains (e : Except String String) (needle : String) : Bool :=
  match e with
  | .error _ => false
  | .ok s => listContains needle.data s.data


/-- A non-empty string is not `isEmpty`. -/
theorem isEmpty_false_of_ne {s : String} (h : s ≠ "") : s.isEmpty = false := by
  rw [← Bool.not_eq_true]
  exact fun hc => h ((String.isEmpty_iff s).mp hc)

/-- A present, non-empty optional string is Python-truthy. -/
theorem strOptTruthy_some_of_ne {s : String} (h : s ≠ "") :
    strOptTruthy (some s) = true := by
  simp [strOptTruthy, isEmpty_false_of_ne h]

/-- Elementwise schema validation of a JSON array preserves the length. -/
theorem validateFlashcards_length :
    ∀ (xs : List Json) (cs : List Flashcard),
      validateFlashcards xs = .ok cs → cs.length = xs.length := by
  intro xs
  induction xs with
  | nil =>
    intro cs h
    simp only [validateFlashcards] at h
    cases h
    rfl
  | cons x xs ih =>
    intro cs h
    simp only [validateFlashcards] at h
    cases hx : validateFlashcard x with
    | error e => simp [hx] at h
    | ok c =>
      simp only [hx] at h
      cases hxs : validateFlashcards xs with
      | error e => simp [hxs] at h
      | ok cs' =>
        simp only [hxs] at h
        cases h
        simp [ih cs' hxs]

/-- A JSON value that validates to a `FlashcardSet` has a `flashcards` array
whose entry count equals the length of the validated list. -/
theorem validateFlashcardSet_numCards (j : Json) (s : FlashcardSet)
    (h : validateFlashcardSet j = .ok s) :
    jsonNumCards j = some s.flashcards.length := by
  cases j with
  | null => simp [validateFlashcardSet] at h
  | bool b => simp [validateFlashcardSet] at h
  | num n => simp [validateFlashcardSet] at h
  | str t => simp [validateFlashcardSet] at h
  | arr xs => simp [validateFlashcardSet] at h
  | obj fields =>
    simp only [validateFlashcardSet] at h
    split at h
    · next t xs heq₁ heq₂ =>
      cases hxs : validateFlashcards xs with
      | error e => simp [hxs] at h
      | ok cs =>
        simp only [hxs] at h
        cases h
        simp [jsonNumCards, heq₂, validateFlashcards_length xs cs hxs]
    · next => simp at h

/-- Scanning the empty template yields the empty prompt. -/
theorem pyFormatScan_nil (num : Nat) (topic fmt : String) :
    pyFormatScan num topic fmt none [] = .ok [] := rfl

/-- A brace-free segment of template text passes through the formatter
scan verbatim. -/
theorem pyFormatScan_clean_append (num : Nat) (topic fmt : String)
    (a b : List Char) (ha : ∀ c ∈ a, c ≠ lbrace ∧ c ≠ rbrace) :
    pyFormatScan num topic fmt none (a ++ b) =
      exMap (fun out => a ++ out) (pyFormatScan num topic fmt none b) := by
  induction a with
  | nil =>
    cases h : pyFormatScan num topic fmt none b <;> simp [exMap, h]
  | cons c as ih =>
    have hc := ha c (List.mem_cons_self c as)
    have has : ∀ x ∈ as, x ≠ lbrace ∧ x ≠ rbrace :=
      fun x hx => ha x (List.mem_cons_of_mem c hx)
    rw [List.cons_append, pyFormatScan.eq_def]
    simp only [if_neg hc.1, if_neg hc.2]
    rw [ih has]
    cases h : pyFormatScan num topic fmt none b <;> simp [exMap, h]

/-- While reading a field name, the scan accumulates every character up to
the closing brace and then resolves the accumulated name. -/
theorem pyFormatScan_name_run (num : Nat) (topic fmt : String)
    (name : List Char) (acc b : List Char) (hname : ∀ c ∈ name, c ≠ rbrace) :
    pyFormatScan num topic fmt (some acc) (name ++ rbrace :: b) =
      match pyFormatVar num topic fmt (acc.reverse ++ name) with
      | .error e => .error e
      | .ok v => exMap (fun out => v ++ out) (pyFormatScan num topic fmt none b) := by
  induction name generalizing acc with
  | nil =>
    rw [List.nil_append, pyFormatScan.eq_def]
    simp [List.append_nil]
  | cons c cs ih =>
    have hc : c ≠ rbrace := hname c (List.mem_cons_self c cs)
    have hcs : ∀ x ∈ cs, x ≠ rbrace := fun x hx => hname x (List.mem_cons_of_mem c hx)
    rw [List.cons_append, pyFormatScan.eq_def]
    simp only [if_neg hc]
    rw [ih (c :: acc) hcs]
    simp [List.reverse_cons, List.append_assoc]

/-- A complete replacement field is resolved by `pyFormatVar` and the scan
continues after its closing brace. -/
theorem pyFormatScan_field (num : Nat) (topic fmt : String)
    (c₀ : Char) (ntail b : List Char) (h₀ : c₀ ≠ lbrace)
    (hname : ∀ c ∈ c₀ :: ntail, c ≠ rbrace) :
    pyFormatScan num topic fmt none (lbrace :: ((c₀ :: ntail) ++ rbrace :: b)) =
      match pyFormatVar num topic fmt (c₀ :: ntail) with
      | .error e => .error e
      | .ok v => exMap (fun out => v ++ out) (pyFormatScan num topic fmt none b) := by
  have h := pyFormatScan_name_run num topic fmt (c₀ :: ntail) [] b hname
  simp only [List.reverse_nil, List.nil_append, List.cons_append] at h
  rw [show lbrace :: ((c₀ :: ntail) ++ rbrace :: b)
        = lbrace :: (c₀ :: (ntail ++ rbrace :: b)) from rfl]
  rw [pyFormatScan.eq_def]
  simp only [if_pos (rfl : lbrace = lbrace), if_neg h₀]
  exact h

/-- The `num` placeholder formats to the decimal rendering of the requested
count. -/
theorem pyFormatScan_num_field (num : Nat) (topic fmt : String) (b : List Char) :
    pyFormatScan num topic fmt none ("\x7bnum\x7d".data ++ b) =
      exMap (fun out => (toString num).data ++ out)
        (pyFormatScan num topic fmt none b) := by
  have h := pyFormatScan_field num topic fmt 'n' ['u', 'm'] b (by decide) (by decide)
  exact h

/-- The `topic` placeholder formats to the topic text. -/
theorem pyFormatScan_topic_field (num : Nat) (topic fmt : String) (b : List Char) :
    pyFormatScan num topic fmt none ("\x7btopic\x7d".data ++ b) =
      exMap (fun out => topic.data ++ out)
        (pyFormatScan num topic fmt none b) := by
  have h := pyFormatScan_field num topic fmt 't' ['o', 'p', 'i', 'c'] b
    (by decide) (by decide)
  exact h

/-- The `format_instructions` placeholder formats to the schema-derived
format instructions. -/
theorem pyFormatScan_fmt_field (num : Nat) (topic fmt : String) (b : List Char) :
    pyFormatScan num topic fmt none ("\x7bformat_instructions\x7d".data ++ b) =
      exMap (fun out => fmt.data ++ out)
        (pyFormatScan num topic fmt none b) := by
  have h := pyFormatScan_field num topic fmt 'f'
    ['o', 'r', 'm', 'a', 't', '_', 'i', 'n', 's', 't', 'r', 'u', 'c', 't',
     'i', 'o', 'n', 's'] b (by decide) (by decide)
  exact h

/-- Scanning the composed default template formats the `num` and `topic`
placeholders, passes brace-free custom instructions through verbatim, and
fills the `format_instructions` placeholder with the schema description. -/
theorem pyFormatScan_composed_default (num : Nat) (topic sd ci : String)
    (hci : ∀ c ∈ ci.data, c ≠ lbrace ∧ c ≠ rbrace) :
    pyFormatScan num topic sd none
        (((defaultPromptTemplate ++ ("\n\nAdditional Instructions:\n" ++ ci))
          ++ "\n\nThe response should be in JSON format.\n\x7bformat_instructions\x7d").data) =
      .ok ((basePrompt num topic ++ ("\n\nAdditional Instructions:\n" ++ ci)
        ++ ("\n\nThe response should be in JSON format.\n" ++ sd)).data) := by
  show pyFormatScan num topic sd none
      ("\n            Generate a set of ".data ++
        ("\x7bnum\x7d".data ++
        (" flashcards on the topic: ".data ++
        ("\x7btopic\x7d".data ++
        (".\n\n".data ++
        ("            For each flashcard, provide:\n".data ++
        ("            1. A front side with a question or key term\n".data ++
        ("            2. A back side with the answer or definition\n".data ++
        ("            3. An optional explanation or additional context\n\n".data ++
        ("            The flashcards should cover key concepts, terminology, and important facts related to the topic.\n\n".data ++
        ("            Ensure that the output follows this structure:\n".data ++
        ("            - A title for the flashcard set (the main topic)\n".data ++
        ("            - A list of flashcards, each containing:\n".data ++
        ("              - front: The question or key term\n".data ++
        ("              - back: The answer or definition\n".data ++
        ("              - explanation: Additional context or explanation (optional)\n".data ++
        ("            ".data ++
        ("\n\nAdditional Instructions:\n".data ++
        (ci.data ++
        ("\n\nThe response should be in JSON format.\n".data ++
        ("\x7bformat_instructions\x7d".data ++
        ([] : List Char)))))))))))))))))))))) = _
  rw [pyFormatScan_clean_append num topic sd
      "\n            Generate a set of ".data _ (by decide)]
  rw [pyFormatScan_num_field]
  rw [pyFormatScan_clean_append num topic sd
      " flashcards on the topic: ".data _ (by decide)]
  rw [pyFormatScan_topic_field]
  rw [pyFormatScan_clean_append num topic sd
      ".\n\n".data _ (by decide)]
  rw [pyFormatScan_clean_append num topic sd
      "            For each flashcard, provide:\n".data _ (by decide)]
  rw [pyFormatScan_clean_append num topic sd
      "            1. A front side with a question or key term\n".data _ (by decide)]
  rw [pyFormatScan_clean_append num topic sd
      "            2. A back side with the answer or definition\n".data _ (by decide)]
  rw [pyFormatScan_clean_append num topic sd
      "            3. An optional explanation or additional context\n\n".data _ (by decide)]
  rw [pyFormatScan_clean_append num topic sd
      "            The flashcards should cover key concepts, terminology, and important facts related to the topic.\n\n".data _ (by decide)]
  rw [pyFormatScan_clean_append num topic sd
      "            Ensure that the output follows this structure:\n".data _ (by decide)]
  rw [pyFormatScan_clean_append num topic sd
      "            - A title for the flashcard set (the main topic)\n".data _ (by decide)]
  rw [pyFormatScan_clean_append num topic sd
      "            - A list of flashcards, each containing:\n".data _ (by decide)]
  rw [pyFormatScan_clean_append num topic sd
      "              - front: The question or key term\n".data _ (by decide)]
  rw [pyFormatScan_clean_append num topic sd
      "              - back: The answer or definition\n".data _ (by decide)]
  rw [pyFormatScan_clean_append num topic sd
      "              - explanation: Additional context or explanation (optional)\n".data _ (by decide)]
  rw [pyFormatScan_clean_append num topic sd
      "            ".data _ (by decide)]
  rw [pyFormatScan_clean_append num topic sd
      "\n\nAdditional Instructions:\n".data _ (by decide)]
  rw [pyFormatScan_clean_append num topic sd ci.data _ hci]
  rw [pyFormatScan_clean_append num topic sd
      "\n\nThe response should be in JSON format.\n".data _ (by decide)]
  rw [pyFormatScan_fmt_field]
  rw [pyFormatScan_nil]
  simp [exMap, basePrompt, String.data_append, List.append_assoc]

/-- For brace-free custom instructions, formatting the composed default
template succeeds and produces exactly `composedPrompt`. -/
theorem formatTemplate_default_braceless (num : Nat) (topic sd ci : String)
    (hne : ci ≠ "") (hci : ∀ c ∈ ci.data, c ≠ lbrace ∧ c ≠ rbrace) :
    formatTemplate (composeTemplate none (some ci)) num topic sd =
      .ok (composedPrompt topic num (some ci) sd) := by
  have hcomp : composeTemplate none (some ci) =
      (defaultPromptTemplate ++ ("\n\nAdditional Instructions:\n" ++ ci))
        ++ "\n\nThe response should be in JSON format.\n\x7bformat_instructions\x7d" := by
    simp [composeTemplate, strOptTruthy_some_of_ne hne]
  have hcp : composedPrompt topic num (some ci) sd =
      basePrompt num topic ++ ("\n\nAdditional Instructions:\n" ++ ci)
        ++ ("\n\nThe response should be in JSON format.\n" ++ sd) := by
    simp [composedPrompt, strOptTruthy_some_of_ne hne]
  unfold formatTemplate
  rw [hcomp, pyFormatScan_composed_default num topic sd ci hci, hcp]

/-- On brace-free custom instructions the two generation models agree: the
formatting step succeeds with `composedPrompt`, so the full pipeline
collapses to `generate_flashcards`. -/
theorem generate_flashcards_full_agrees (topic : String) (num : Nat)
    (ci fi : String) (decode : String → Option Json)
    (invoke : String → Except String String) (hne : ci ≠ "")
    (hci : ∀ c ∈ ci.data, c ≠ lbrace ∧ c ≠ rbrace) :
    generate_flashcards_full topic num (some ci) fi decode invoke =
      generate_flashcards topic num (some ci) fi decode invoke := by
  unfold generate_flashcards_full generate_flashcards
  rw [formatTemplate_default_braceless num topic fi ci hne hci]

/-- C1: for every topic, count, and model response text that fails to
deserialize into the declared schema (malformed JSON, missing required
field, or type mismatch), `generate_flashcards` does not raise: it emits
the diagnostic lines of the failure and returns the fallback `FlashcardSet`
whose title equals the original topic and whose flashcards list is
empty. -/
theorem c1_parse_failure_returns_fallback
    (topic : String) (num : Nat) (ci : Option String) (fi : String)
    (decode : String → Option Json) (invoke : String → Except String String)
    (content e : String)
    (hinv : invoke (composedPrompt topic num ci fi) = .ok content)
    (hp : parseResponse decode content = .error e) :
    (generate_flashcards topic num ci fi decode invoke).result
        = .ok { title := topic, flashcards := [] } ∧
    (generate_flashcards topic num ci fi decode invoke).logs
        = ["Error parsing output: " ++ e, "Raw output:", content] := by
  constructor <;> simp only [generate_flashcards, hinv, hp]

/-- Witness for C1 at a concrete input: a plain-prose model response that is
not JSON yields the fallback set titled with the topic, plus the three
diagnostic lines. -/
theorem c1_parse_failure_returns_fallback_witness :
    ((fun _ => Except.ok "plain prose" : String → Except String String)
        (composedPrompt "Python Programming" 5 none "FMT") = .ok "plain prose" ∧
     parseResponse (fun _ => none) "plain prose"
        = .error ("Invalid json output: " ++ "plain prose")) ∧
    ((generate_flashcards "Python Programming" 5 none "FMT" (fun _ => none)
        (fun _ => .ok "plain prose")).result
        = .ok { title := "Python Programming", flashcards := [] } ∧
     (generate_flashcards "Python Programming" 5 none "FMT" (fun _ => none)
        (fun _ => .ok "plain prose")).logs
        = ["Error parsing output: " ++ ("Invalid json output: " ++ "plain prose"),
           "Raw output:", "plain prose"]) :=
  ⟨⟨rfl, rfl⟩,
   c1_parse_failure_returns_fallback "Python Programming" 5 none "FMT"
     (fun _ => none) (fun _ => .ok "plain prose") "plain prose"
     ("Invalid json output: " ++ "plain prose") rfl rfl⟩

/-- C5: prompt construction is deterministic — two calls with identical
topic, count, custom instructions and schema description compose identical
prompt strings. -/
theorem c5_prompt_deterministic
    (t₁ t₂ : String) (n₁ n₂ : Nat) (ci₁ ci₂ : Option String) (sd₁ sd₂ : String)
    (ht : t₁ = t₂) (hn : n₁ = n₂) (hci : ci₁ = ci₂) (hsd : sd₁ = sd₂) :
    composedPrompt t₁ n₁ ci₁ sd₁ = composedPrompt t₂ n₂ ci₂ sd₂ := by
  subst ht; subst hn; subst hci; subst hsd; rfl

/-- Witness for C5 at a concrete pair of identical inputs. -/
theorem c5_prompt_deterministic_witness :
    (("Python" : String) = "Python" ∧ (5 : Nat) = 5 ∧
     (some "Focus" : Option String) = some "Focus" ∧ ("S" : String) = "S") ∧
    composedPrompt "Python" 5 (some "Focus") "S"
      = composedPrompt "Python" 5 (some "Focus") "S" :=
  ⟨⟨rfl, rfl, rfl, rfl⟩,
   c5_prompt_deterministic "Python" "Python" 5 5 (some "Focus") (some "Focus")
     "S" "S" rfl rfl rfl rfl⟩

/-- C7: an empty topic input never triggers a generation call — the click
handler makes no call to `generate_flashcards` and surfaces the
missing-topic warning instead. -/
theorem c7_empty_topic_warns_without_generation (num : Nat) (fi : String)
    (decode : String → Option Json) (invoke : String → Except String String) :
    onGenerateClick "" num fi decode invoke =
      { genCalled := false, warning := some emptyTopicWarning, outcome := none } := rfl

/-- C9: a non-empty topic — in particular one consisting only of whitespace
— is treated as present by the UI gate: it triggers a generation call and
no warning, since only the empty string is falsy. -/
theorem c9_nonempty_topic_triggers_generation
    (topic : String) (num : Nat) (fi : String) (decode : String → Option Json)
    (invoke : String → Except String String) (h : topic ≠ "") :
    (onGenerateClick topic num fi decode invoke).genCalled = true ∧
    (onGenerateClick topic num fi decode invoke).warning = none := by
  simp [onGenerateClick, isEmpty_false_of_ne h]

/-- Witness for C9 at the whitespace-only topic consisting of one space. -/
theorem c9_nonempty_topic_triggers_generation_witness :
    (" " : String) ≠ "" ∧
    ((onGenerateClick " " 5 "FMT" (fun _ => none)
        (fun _ => .error "offline")).genCalled = true ∧
     (onGenerateClick " " 5 "FMT" (fun _ => none)
        (fun _ => .error "offline")).warning = none) :=
  ⟨by decide,
   c9_nonempty_topic_triggers_generation " " 5 "FMT" (fun _ => none)
     (fun _ => .error "offline") (by decide)⟩

/-- C10: an empty-string custom_instructions is treated exactly like an
absent one — the `Additional Instructions` section is not appended, and both
the composed template and the composed prompt equal the ones built with the
custom instructions omitted. -/
theorem c10_empty_instructions_like_absent (pt : Option String)
    (topic : String) (num : Nat) (sd : String) :
    composeTemplate pt (some "") = composeTemplate pt none ∧
    composedPrompt topic num (some "") sd = composedPrompt topic num none sd :=
  ⟨rfl, rfl⟩

/-- C2 counterexample: the schema-conforming response
`{"title": "", "flashcards": []}` makes `generate_flashcards` with
count 5 return a set with zero flashcards and an empty title, refuting the
claim that a schema-conforming response always yields exactly `count`
flashcards and a non-empty title. -/
theorem c2_counterexample_conforming_empty_response :
    (1 ≤ 5 ∧ 5 ≤ 20) ∧
    validateFlashcardSet emptySetJson = .ok { title := "", flashcards := [] } ∧
    (generate_flashcards "Python Programming" 5 none "FMT"
        (fun _ => some emptySetJson) (fun _ => .ok "response")).result
      = .ok { title := "", flashcards := [] } ∧
    ¬ (({ title := "", flashcards := [] } : FlashcardSet).flashcards.length = 5 ∧
       ({ title := "", flashcards := [] } : FlashcardSet).title ≠ "") :=
  ⟨⟨by decide, by decide⟩, rfl, rfl, by decide⟩

/-- C2 (amended): for every valid (topic, count) with count in [1, 20], if
the model response conforms to the declared schema, the returned
`FlashcardSet` is exactly the validated parse of the response: its
flashcards length equals the number of flashcard records in the response
(which the schema does not force to equal count), so it equals count
exactly when the response carries count records; likewise the title is the
response title, which the schema does not force to be non-empty. -/
theorem c2_amended_conforming_response_returned_as_parsed
    (topic : String) (num : Nat) (ci : Option String) (fi content : String)
    (decode : String → Option Json) (invoke : String → Except String String)
    (j : Json) (s : FlashcardSet)
    (_hn₁ : 1 ≤ num) (_hn₂ : num ≤ 20)
    (hinv : invoke (composedPrompt topic num ci fi) = .ok content)
    (hdec : decode content = some j) (hval : validateFlashcardSet j = .ok s) :
    (generate_flashcards topic num ci fi decode invoke).result = .ok s ∧
    jsonNumCards j = some s.flashcards.length ∧
    (s.flashcards.length = num ↔ jsonNumCards j = some num) := by
  have hlen := validateFlashcardSet_numCards j s hval
  have hres : (generate_flashcards topic num ci fi decode invoke).result = .ok s := by
    simp only [generate_flashcards, hinv, parseResponse, hdec, hval]
  refine ⟨hres, hlen, ?_⟩
  rw [hlen]
  simp

/-- Witness for the amended C2 at a concrete two-card conforming response
with requested count 2. -/
theorem c2_amended_witness :
    (1 ≤ 2 ∧ 2 ≤ 20 ∧
     (fun _ => Except.ok "resp" : String → Except String String)
        (composedPrompt "Python Programming" 2 none "FMT") = .ok "resp" ∧
     (fun _ => some twoCardJson : String → Option Json) "resp" = some twoCardJson ∧
     validateFlashcardSet twoCardJson = .ok twoCardSet) ∧
    ((generate_flashcards "Python Programming" 2 none "FMT"
        (fun _ => some twoCardJson) (fun _ => .ok "resp")).result = .ok twoCardSet ∧
     jsonNumCards twoCardJson = some twoCardSet.flashcards.length ∧
     (twoCardSet.flashcards.length = 2 ↔ jsonNumCards twoCardJson = some 2)) :=
  ⟨⟨by decide, by decide, rfl, rfl, rfl⟩,
   c2_amended_conforming_response_returned_as_parsed "Python Programming" 2 none
     "FMT" "resp" (fun _ => some twoCardJson) (fun _ => .ok "resp")
     twoCardJson twoCardSet (by decide) (by decide) rfl rfl rfl⟩

/-- C3 counterexample: a schema-conforming response carrying three
flashcards against a requested count of 2 makes `generate_flashcards`
return a set of length 3, refuting the claim that the returned length is
always between 0 and the requested count. -/
theorem c3_counterexample_overlong_response :
    validateFlashcardSet threeCardJson = .ok threeCardSet ∧
    (generate_flashcards "Cell Biology" 2 none "FMT"
        (fun _ => some threeCardJson) (fun _ => .ok "response")).result
      = .ok threeCardSet ∧
    threeCardSet.flashcards.length = 3 ∧ ¬ (threeCardSet.flashcards.length ≤ 2) :=
  ⟨rfl, rfl, rfl, by decide⟩

/-- C3 (amended): for every generation request whose remote call succeeds,
either parsing fails and the result is the fallback set (empty flashcards,
title equal to the topic), or parsing succeeds and the result is exactly
the validated response, whose flashcards length equals the number of
flashcard records in the response — a quantity the requested count does not
bound, and which is zero exactly when the response itself carries zero
records. -/
theorem c3_amended_length_matches_response
    (topic : String) (num : Nat) (ci : Option String) (fi content : String)
    (decode : String → Option Json) (invoke : String → Except String String)
    (hinv : invoke (composedPrompt topic num ci fi) = .ok content) :
    ((generate_flashcards topic num ci fi decode invoke).result
        = .ok { title := topic, flashcards := [] } ∧
      ∃ e, parseResponse decode content = .error e)
    ∨ (∃ j s, decode content = some j ∧ validateFlashcardSet j = .ok s ∧
        (generate_flashcards topic num ci fi decode invoke).result = .ok s ∧
        jsonNumCards j = some s.flashcards.length) := by
  cases hd : decode content with
  | none =>
    left
    constructor
    · simp only [generate_flashcards, hinv, parseResponse, hd]
    · exact ⟨"Invalid json output: " ++ content, by simp [parseResponse, hd]⟩
  | some j =>
    cases hv : validateFlashcardSet j with
    | error e =>
      left
      constructor
      · simp only [generate_flashcards, hinv, parseResponse, hd, hv]
      · exact ⟨e, by simp [parseResponse, hd, hv]⟩
    | ok s =>
      right
      exact ⟨j, s, rfl, hv,
        by simp only [generate_flashcards, hinv, parseResponse, hd, hv],
        validateFlashcardSet_numCards j s hv⟩

/-- Witness for the amended C3 at a concrete non-JSON response. -/
theorem c3_amended_witness :
    ((fun _ => Except.ok "no json here" : String → Except String String)
        (composedPrompt "History" 4 none "FMT") = .ok "no json here") ∧
    (((generate_flashcards "History" 4 none "FMT" (fun _ => none)
        (fun _ => .ok "no json here")).result
          = .ok { title := "History", flashcards := [] } ∧
      ∃ e, parseResponse (fun _ => none) "no json here" = .error e)
     ∨ (∃ j s, (fun _ => none : String → Option Json) "no json here" = some j ∧
         validateFlashcardSet j = .ok s ∧
         (generate_flashcards "History" 4 none "FMT" (fun _ => none)
            (fun _ => .ok "no json here")).result = .ok s ∧
         jsonNumCards j = some s.flashcards.length)) :=
  ⟨rfl,
   c3_amended_length_matches_response "History" 4 none "FMT" "no json here"
     (fun _ => none) (fun _ => .ok "no json here") rfl⟩

/-- C8: when a caller supplies a custom response model and parsing of the
model output fails, `generate_flashcards` returns the default-schema
fallback `FlashcardSet` (title = topic, empty flashcards) rather than an
instance of the supplied response model, so the error-branch return value
never lies in the requested schema type. -/
theorem c8_custom_model_error_branch_type
    (α : Type) (topic : String) (num : Nat) (ci : Option String) (fi : String)
    (parse : String → Except String α) (invoke : String → Except String String)
    (content e : String)
    (hinv : invoke (composedPrompt topic num ci fi) = .ok content)
    (hp : parse content = .error e) :
    generate_flashcards_custom α topic num ci fi parse invoke
        = .ok (.inr { title := topic, flashcards := [] }) ∧
    ∀ v : α, generate_flashcards_custom α topic num ci fi parse invoke
        ≠ .ok (.inl v) := by
  have he : generate_flashcards_custom α topic num ci fi parse invoke
      = .ok (.inr { title := topic, flashcards := [] }) := by
    simp only [generate_flashcards_custom, hinv, hp]
  exact ⟨he, fun v hv => by rw [he] at hv; simp at hv⟩

/-- Witness for C8 with the sample `QuizBank` response model and a failing
parse. -/
theorem c8_custom_model_error_branch_type_witness :
    ((fun _ => Except.ok "resp" : String → Except String String)
        (composedPrompt "Geometry" 3 none "FMT") = .ok "resp" ∧
     (fun _ => Except.error "items: field required" :
        String → Except String QuizBank) "resp" = .error "items: field required") ∧
    (generate_flashcards_custom QuizBank "Geometry" 3 none "FMT"
        (fun _ => .error "items: field required") (fun _ => .ok "resp")
        = .ok (.inr { title := "Geometry", flashcards := [] }) ∧
     ∀ v : QuizBank, generate_flashcards_custom QuizBank "Geometry" 3 none "FMT"
        (fun _ => .error "items: field required") (fun _ => .ok "resp")
        ≠ .ok (.inl v)) :=
  ⟨⟨rfl, rfl⟩,
   c8_custom_model_error_branch_type QuizBank "Geometry" 3 none "FMT"
     (fun _ => .error "items: field required") (fun _ => .ok "resp")
     "resp" "items: field required" rfl rfl⟩

/-- C4 counterexample: custom instructions carrying the unknown replacement
field `ref` make the template formatter inside the chain invocation raise
before any remote call, so `generate_flashcards` propagates an error even
though the remote call — a stub that succeeds on every input, sampled in
the last conjunct — never failed; raising is therefore not equivalent to a
remote failure. -/
theorem c4_counterexample_format_failure :
    formatTemplate (composeTemplate none (some "See \x7bref\x7d for details")) 5
        "Python Programming" "FMT" = .error "KeyError: ref" ∧
    (generate_flashcards_full "Python Programming" 5
        (some "See \x7bref\x7d for details") "FMT"
        (fun _ => none) (fun _ => .ok "resp")).result = .error "KeyError: ref" ∧
    (fun _ => Except.ok "resp" : String → Except String String) "any prompt"
      = .ok "resp" :=
  ⟨rfl, rfl, rfl⟩

/-- C4 (amended): `generate_flashcards` propagates an error to its caller
if and only if the chain invocation fails — that is, either the
template-formatting step fails (malformed or unknown replacement-field
braces, e.g. inside the custom instructions) or, formatting having
succeeded, the remote call on the formatted prompt fails; every parse
failure is still absorbed locally into the fallback set. -/
theorem c4_amended_error_iff_format_or_remote_failure
    (topic : String) (num : Nat) (ci : Option String) (fi : String)
    (decode : String → Option Json) (invoke : String → Except String String)
    (e : String) :
    (generate_flashcards_full topic num ci fi decode invoke).result = .error e ↔
      (formatTemplate (composeTemplate none ci) num topic fi = .error e ∨
       ∃ p, formatTemplate (composeTemplate none ci) num topic fi = .ok p ∧
         invoke p = .error e) := by
  unfold generate_flashcards_full
  cases hf : formatTemplate (composeTemplate none ci) num topic fi with
  | error e₀ => simp
  | ok p =>
    cases h : invoke p with
    | error e₀ => simp [h]
    | ok content => cases hp : parseResponse decode content <;> simp [h, hp]

/-- C6 counterexample: custom instructions that carry the replacement field
named `num` are substituted by the template formatter instead of being
passed through: the formatted prompt exists, does not contain the original
custom-instructions text, and contains the substituted text with the count
5 in its place — so the composed prompt does not contain every non-empty
custom-instructions string verbatim. -/
theorem c6_counterexample_placeholder_substituted :
    exceptOk (formatTemplate
        (composeTemplate none (some "Include \x7bnum\x7d examples"))
        5 "Python Programming" "FMT") = true ∧
    exceptContains (formatTemplate
        (composeTemplate none (some "Include \x7bnum\x7d examples"))
        5 "Python Programming" "FMT") "Include \x7bnum\x7d examples" = false ∧
    exceptContains (formatTemplate
        (composeTemplate none (some "Include \x7bnum\x7d examples"))
        5 "Python Programming" "FMT") "Include 5 examples" = true :=
  ⟨rfl, rfl, rfl⟩

/-- C6 (amended): for every non-empty custom-instructions string containing
no brace characters, the formatter succeeds and the composed prompt string
contains that exact text verbatim, placed after the base instructions and
before the appended machine-readable format instructions; custom
instructions that use replacement-field braces are substituted or rejected
by the formatter instead. -/
theorem c6_amended_braceless_instructions_verbatim
    (topic sd ci : String) (num : Nat) (hne : ci ≠ "")
    (hci : ∀ c ∈ ci.data, c ≠ lbrace ∧ c ≠ rbrace) :
    formatTemplate (composeTemplate none (some ci)) num topic sd =
      .ok (composedPrompt topic num (some ci) sd) ∧
    composedPrompt topic num (some ci) sd =
      basePrompt num topic ++ ("\n\nAdditional Instructions:\n" ++ ci)
        ++ ("\n\nThe response should be in JSON format.\n" ++ sd) ∧
    ci.data <:+: (composedPrompt topic num (some ci) sd).data := by
  have hcp : composedPrompt topic num (some ci) sd =
      basePrompt num topic ++ ("\n\nAdditional Instructions:\n" ++ ci)
        ++ ("\n\nThe response should be in JSON format.\n" ++ sd) := by
    simp [composedPrompt, strOptTruthy_some_of_ne hne]
  refine ⟨formatTemplate_default_braceless num topic sd ci hne hci, hcp, ?_⟩
  rw [hcp]
  refine ⟨(basePrompt num topic).data ++ "\n\nAdditional Instructions:\n".data,
    ("\n\nThe response should be in JSON format.\n" ++ sd).data, ?_⟩
  simp [String.data_append, List.append_assoc]

/-- Witness for the amended C6 at the concrete custom instruction of the
specification example, which contains no braces. -/
theorem c6_amended_witness :
    (("Focus on advanced topics only" : String) ≠ "" ∧
     (∀ c ∈ ("Focus on advanced topics only" : String).data,
        c ≠ lbrace ∧ c ≠ rbrace)) ∧
    (formatTemplate (composeTemplate none (some "Focus on advanced topics only"))
        5 "Python Programming" "SCHEMA" =
      .ok (composedPrompt "Python Programming" 5
        (some "Focus on advanced topics only") "SCHEMA") ∧
     composedPrompt "Python Programming" 5
        (some "Focus on advanced topics only") "SCHEMA" =
      basePrompt 5 "Python Programming"
        ++ ("\n\nAdditional Instructions:\n" ++ "Focus on advanced topics only")
        ++ ("\n\nThe response should be in JSON format.\n" ++ "SCHEMA") ∧
     ("Focus on advanced topics only" : String).data <:+:
        (composedPrompt "Python Programming" 5
          (some "Focus on advanced topics only") "SCHEMA").data) :=
  ⟨⟨by decide, by decide⟩,
   c6_amended_braceless_instructions_verbatim "Python Programming" "SCHEMA"
     "Focus on advanced topics only" 5 (by decide) (by decide)⟩
